import Mathlib

/-!
# Verification of the `pycursor_agent` backend-adapter layer

Shallow embedding of the translation-and-normalization layer of the
AutoCursor repository (`src/pycursor_agent/`): the four backend adapters
(`CursorAgentClient`, `ClaudeCodeClient`, `CodexClient`, `GeminiClient`),
their argument translators, output normalizers, model-alias resolvers and
error handling, together with theorems settling the frozen claims.

Conventions of the embedding:
* Python strings are `String`; `Optional[str]` is `Option String` with the
  additional Python truthiness check (`if s:`) rendered as `s ≠ ""`.
* `subprocess.run(..., capture_output=True, text=True, check=True)` is
  modelled by a runner function `List String → RunResult`; `check=True`
  raising `CalledProcessError` on a non-zero exit status is rendered as a
  branch on `RunResult.exitCode`.
* Python exceptions escaping an operation are the `.error` side of
  `Except PyError α`.
* String primitives (`strip`, `lower`, `split`, `join`) are re-implemented
  over `List Char` so that every definition reduces inside the kernel;
  Python's Unicode-aware case folding and Unicode whitespace classes are
  approximated by their ASCII behaviour (no claim depends on non-ASCII
  case mapping or exotic whitespace).
* `json.loads` is modelled by an executable JSON parser `jsonLoads`
  returning `Option PyObj`; `Option.none` stands for `json.JSONDecodeError`.
-/

namespace PyCursorAgent

/-! ## Python string primitives -/

/-- The whitespace set of Python `str.strip()` (ASCII part). -/
def isPyWs (c : Char) : Bool :=
  c = ' ' || c = '\t' || c = '\n' || c = '\r' || c = Char.ofNat 11 || c = Char.ofNat 12

/-- Python `str.strip()`: remove leading and trailing whitespace. -/
def pyStrip (s : String) : String :=
  String.mk (((s.data.dropWhile isPyWs).reverse.dropWhile isPyWs).reverse)

/-- Python `str.lower()` (ASCII case mapping). -/
def pyLower (s : String) : String :=
  String.mk (s.data.map Char.toLower)

/-- Does `pre` occur at the head of `l`? -/
def charsHasPre : List Char → List Char → Bool
  | [], _ => true
  | _ :: _, [] => false
  | a :: as, b :: bs => a = b && charsHasPre as bs

/-- Python `needle in hay` on strings: substring occurrence. -/
def strContains (hay needle : String) : Bool :=
  (List.range (hay.data.length + 1)).any (fun i => charsHasPre needle.data (hay.data.drop i))

/-- Splitter behind Python `str.split(sep)` for a non-empty separator:
left-to-right, non-overlapping, keeping empty pieces. The fuel argument
only serves termination and is always at least the input length plus one. -/
def splitSeqAux (sep : List Char) : Nat → List Char → List (List Char)
  | _, [] => [[]]
  | 0, cs => [cs]
  | fuel + 1, c :: cs =>
    if sep ≠ [] && charsHasPre sep (c :: cs) then
      [] :: splitSeqAux sep fuel ((c :: cs).drop sep.length)
    else
      match splitSeqAux sep fuel cs with
      | h :: t => (c :: h) :: t
      | [] => [[c]]

/-- Python `s.split(sep)` for a non-empty separator string. -/
def pySplitStr (s sep : String) : List String :=
  (splitSeqAux sep.data (s.data.length + 1) s.data).map String.mk

/-- Python `sep.join(xs)` for plain strings. -/
def joinSep (sep : String) : List String → String
  | [] => ""
  | [x] => x
  | x :: y :: xs => x ++ sep ++ joinSep sep (y :: xs)

/-- Worker for `pySplitWs`: accumulates the current word reversed. -/
def splitWsAux : List Char → List Char → List String
  | acc, [] => if acc = [] then [] else [String.mk acc.reverse]
  | acc, c :: cs =>
    if isPyWs c then
      if acc = [] then splitWsAux [] cs
      else String.mk acc.reverse :: splitWsAux [] cs
    else splitWsAux (c :: acc) cs

/-- Python `s.split()` (no argument): split on whitespace runs, dropping
empty pieces. -/
def pySplitWs (s : String) : List String :=
  splitWsAux [] s.data

/-- Outcome of one child process: exit status plus captured text streams
(`subprocess.run` with `capture_output=True, text=True`). -/
structure RunResult where
  exitCode : Nat
  stdout : String
  stderr : String
deriving Repr, DecidableEq

/-- Python exceptions that can escape the adapters' operations. -/
inductive PyError where
  | attributeError (attr : String)
  | runtimeError (msg : String)
  | typeError (msg : String)
  | indexError (msg : String)
deriving Repr, DecidableEq

/-- Python `a or b` on strings: `a` when non-empty, else `b`
(`error_msg = e.stderr or e.stdout`). -/
def pyStrOr (a b : String) : String :=
  if a ≠ "" then a else b

/-- Argument record for `agent(...)`: the keyword parameters shared by all
four adapters' `agent` signatures, with the defaults of the source
(`mode="agent"`, `force=True`, `approve_mcps=None`, `chat_id=None`,
`print_output=True`). -/
structure AgentRequest where
  prompt : String
  model : Option String := none
  mode : String := "agent"
  force : Bool := true
  approve_mcps : Option Bool := none
  chat_id : Option String := none
  print_output : Bool := true
deriving Repr, DecidableEq

/-- `BaseAgentClient.ask` (base.py:87-95): calls
`self.agent(prompt, model=model, mode="ask", force=False)`, every other
parameter left at its `agent` default. -/
def askRequest (prompt : String) (model : Option String) : AgentRequest :=
  { prompt := prompt, model := model, mode := "ask", force := false }

/-- Mode handling block repeated verbatim in all four adapters
(cursor.py:97-103, claude.py:132-139, codex.py:99-106, gemini.py:123-130):
`final_prompt = prompt` then an `if/elif` chain on `mode` that prefixes
the prompt for `ask`, `debug` and `planner` and otherwise leaves it
unchanged. -/
def applyMode (mode prompt : String) : String :=
  if mode = "ask" then
    "[MODE: ASK - Please answer the question without modifying any files] " ++ prompt
  else if mode = "debug" then
    "[MODE: DEBUG - Focus on finding and fixing bugs in the code] " ++ prompt
  else if mode = "planner" then
    "[MODE: PLANNER - Create a detailed plan for the following task but do not execute yet] " ++ prompt
  else
    prompt

/-! ## Python values and `json.loads`

`PyObj` covers exactly the values `json.loads` can produce. Numbers keep
their source lexeme: no claim inspects a numeric value, only types, dict
lookups and string comparisons. -/

inductive PyObj where
  | null
  | boolean (b : Bool)
  | num (lexeme : String)
  | str (s : String)
  | list (xs : List PyObj)
  | dict (entries : List (String × PyObj))

/-- Lookup in a decoded JSON object. `json.loads` lets a later duplicate
key overwrite an earlier one, so the last matching entry wins. -/
def dictGet (es : List (String × PyObj)) (k : String) : Option PyObj :=
  es.foldl (fun acc p => if p.1 = k then some p.2 else acc) Option.none

/-- Python `obj.get(key, default)`: defined on `dict` only; on any other
value the attribute lookup of `get` raises `AttributeError`. -/
def pyGetD (o : PyObj) (k : String) (d : PyObj) : Except PyError PyObj :=
  match o with
  | .dict es => .ok ((dictGet es k).getD d)
  | _ => .error (.attributeError "get")

/-- Python `o == s` for a string literal `s`: true only when `o` is an
equal string (cross-type equality is `False`). -/
def pyEqStr (o : PyObj) (s : String) : Bool :=
  match o with
  | .str t => t = s
  | _ => false

/-- Python truthiness of a decoded JSON value. A numeric lexeme is truthy
when its mantissa has a non-zero digit (`0`, `0.0`, `-0.00e7` are falsy);
extreme exponents that underflow to `0.0` in Python float conversion are
not modelled. -/
def PyObj.truthy : PyObj → Bool
  | .null => false
  | .boolean b => b
  | .num lex => (lex.data.takeWhile (fun c => c ≠ 'e' && c ≠ 'E')).any
      (fun c => c.isDigit && c ≠ '0')
  | .str s => s ≠ ""
  | .list xs => !xs.isEmpty
  | .dict es => !es.isEmpty

/-- JSON whitespace (RFC 8259): space, tab, line feed, carriage return. -/
def skipWs : List Char → List Char
  | [] => []
  | c :: cs => if c = ' ' || c = '\t' || c = '\n' || c = '\r' then skipWs cs else c :: cs

/-- Value of one hexadecimal digit. -/
def hexVal (c : Char) : Option Nat :=
  if '0' ≤ c && c ≤ '9' then some (c.toNat - 48)
  else if 'a' ≤ c && c ≤ 'f' then some (c.toNat - 87)
  else if 'A' ≤ c && c ≤ 'F' then some (c.toNat - 55)
  else none

/-- Four hexadecimal digits of a `\uXXXX` escape. -/
def hex4 (a b c d : Char) : Option Nat := do
  let ha ← hexVal a
  let hb ← hexVal b
  let hc ← hexVal c
  let hd ← hexVal d
  pure (((ha * 16 + hb) * 16 + hc) * 16 + hd)

/-- Body of a JSON string after the opening quote: returns the decoded
content and the remaining input. Mirrors `json.loads` in strict mode:
unescaped control characters below `0x20` are rejected, the standard
escapes and `\uXXXX` (with surrogate-pair combination) are decoded. A
lone surrogate, which Python would keep as a lone surrogate code unit, is
rendered as U+FFFD because `Char` cannot hold surrogates; no claim uses
such input. -/
def parseJStr : Nat → List Char → Option (String × List Char)
  | 0, _ => Option.none
  | _ + 1, [] => Option.none
  | fuel + 1, c :: cs =>
    let cont := fun (ch : Char) (rest : List Char) =>
      (parseJStr fuel rest).map (fun p => (String.mk (ch :: p.1.data), p.2))
    if c = '"' then some ("", cs)
    else if c = '\\' then
      match cs with
      | [] => Option.none
      | e :: cs' =>
        if e = '"' then cont '"' cs'
        else if e = '\\' then cont '\\' cs'
        else if e = '/' then cont '/' cs'
        else if e = 'b' then cont (Char.ofNat 8) cs'
        else if e = 'f' then cont (Char.ofNat 12) cs'
        else if e = 'n' then cont '\n' cs'
        else if e = 'r' then cont '\r' cs'
        else if e = 't' then cont '\t' cs'
        else if e = 'u' then
          match cs' with
          | a :: b :: c2 :: d :: r =>
            match hex4 a b c2 d with
            | Option.none => Option.none
            | some n =>
              if 0xD800 ≤ n && n < 0xDC00 then
                match r with
                | '\\' :: 'u' :: a2 :: b2 :: c3 :: d2 :: r2 =>
                  match hex4 a2 b2 c3 d2 with
                  | some m =>
                    if 0xDC00 ≤ m && m < 0xE000 then
                      cont (Char.ofNat (0x10000 + (n - 0xD800) * 0x400 + (m - 0xDC00))) r2
                    else cont (Char.ofNat 0xFFFD) r
                  | Option.none => cont (Char.ofNat 0xFFFD) r
                | _ => cont (Char.ofNat 0xFFFD) r
              else if 0xDC00 ≤ n && n < 0xE000 then cont (Char.ofNat 0xFFFD) r
              else cont (Char.ofNat n) r
          | _ => Option.none
        else Option.none
    else if c.toNat < 32 then Option.none
    else cont c cs

/-- Digits and remainder, requiring at least one digit. -/
def takeDigits1 (cs : List Char) : Option (List Char × List Char) :=
  let ds := cs.takeWhile Char.isDigit
  if ds = [] then Option.none else some (ds, cs.drop ds.length)

/-- Optional fraction part `.digits` of a JSON number. -/
def parseFrac : List Char → Option (List Char × List Char)
  | '.' :: r =>
    (takeDigits1 r).map (fun p => ('.' :: p.1, p.2))
  | cs => some ([], cs)

/-- Optional exponent part `[eE][+-]?digits` of a JSON number. -/
def parseExpPart : List Char → Option (List Char × List Char)
  | [] => some ([], [])
  | e :: r =>
    if e = 'e' || e = 'E' then
      let sgnR : List Char × List Char :=
        match r with
        | '+' :: rr => (['+'], rr)
        | '-' :: rr => (['-'], rr)
        | _ => ([], r)
      (takeDigits1 sgnR.2).map (fun p => (e :: sgnR.1 ++ p.1, p.2))
    else some ([], e :: r)

/-- JSON number per the RFC 8259 grammar, returning its lexeme:
`-? (0 | [1-9][0-9]*) frac? exp?`. -/
def parseNumber (cs : List Char) : Option (PyObj × List Char) :=
  let negCs : List Char × List Char :=
    match cs with
    | '-' :: r => (['-'], r)
    | _ => ([], cs)
  let finish := fun (intPart : List Char) (rest : List Char) => do
    let fr ← parseFrac rest
    let ex ← parseExpPart fr.2
    pure (PyObj.num (String.mk (negCs.1 ++ intPart ++ fr.1 ++ ex.1)), ex.2)
  match negCs.2 with
  | '0' :: r => finish ['0'] r
  | c :: r =>
    if c.isDigit then
      let ds := r.takeWhile Char.isDigit
      finish (c :: ds) (r.drop ds.length)
    else Option.none
  | [] => Option.none

mutual

/-- One JSON value, as accepted by `json.loads` with its default settings
(which also admit the constants `NaN`, `Infinity` and `-Infinity`). -/
def parseValue : Nat → List Char → Option (PyObj × List Char)
  | 0, _ => Option.none
  | fuel + 1, cs =>
    match skipWs cs with
    | [] => Option.none
    | c :: rest =>
      if c = '{' then
        match skipWs rest with
        | '}' :: r2 => some (.dict [], r2)
        | _ => (parseObjMembers fuel rest).map (fun p => (PyObj.dict p.1, p.2))
      else if c = '[' then
        match skipWs rest with
        | ']' :: r2 => some (.list [], r2)
        | _ => (parseArrayItems fuel rest).map (fun p => (PyObj.list p.1, p.2))
      else if c = '"' then
        (parseJStr fuel rest).map (fun p => (PyObj.str p.1, p.2))
      else if c = 't' then
        match rest with
        | 'r' :: 'u' :: 'e' :: r => some (.boolean true, r)
        | _ => Option.none
      else if c = 'f' then
        match rest with
        | 'a' :: 'l' :: 's' :: 'e' :: r => some (.boolean false, r)
        | _ => Option.none
      else if c = 'n' then
        match rest with
        | 'u' :: 'l' :: 'l' :: r => some (.null, r)
        | _ => Option.none
      else if c = 'N' then
        match rest with
        | 'a' :: 'N' :: r => some (.num "NaN", r)
        | _ => Option.none
      else if c = 'I' then
        match rest with
        | 'n' :: 'f' :: 'i' :: 'n' :: 'i' :: 't' :: 'y' :: r => some (.num "Infinity", r)
        | _ => Option.none
      else if c = '-' then
        match rest with
        | 'I' :: 'n' :: 'f' :: 'i' :: 'n' :: 'i' :: 't' :: 'y' :: r =>
          some (.num "-Infinity", r)
        | _ => parseNumber (c :: rest)
      else parseNumber (c :: rest)

/-- Members of a JSON object after the opening brace (non-empty case). -/
def parseObjMembers : Nat → List Char → Option (List (String × PyObj) × List Char)
  | 0, _ => Option.none
  | fuel + 1, cs =>
    match skipWs cs with
    | '"' :: r => do
      let kp ← parseJStr fuel r
      match skipWs kp.2 with
      | ':' :: r2 => do
        let vp ← parseValue fuel r2
        match skipWs vp.2 with
        | ',' :: r4 => do
          let restP ← parseObjMembers fuel r4
          pure ((kp.1, vp.1) :: restP.1, restP.2)
        | '}' :: r4 => pure ([(kp.1, vp.1)], r4)
        | _ => Option.none
      | _ => Option.none
    | _ => Option.none

/-- Items of a JSON array after the opening bracket (non-empty case). -/
def parseArrayItems : Nat → List Char → Option (List PyObj × List Char)
  | 0, _ => Option.none
  | fuel + 1, cs => do
    let vp ← parseValue fuel cs
    match skipWs vp.2 with
    | ',' :: r2 => do
      let restP ← parseArrayItems fuel r2
      pure (vp.1 :: restP.1, restP.2)
    | ']' :: r2 => pure ([vp.1], r2)
    | _ => Option.none

end

/-- `json.loads(s)`: parse one JSON document and require only whitespace
after it; `Option.none` stands for `json.JSONDecodeError`. The fuel is
always sufficient for the recursion because every nesting level consumes
at least one character. -/
def jsonLoads (s : String) : Option PyObj :=
  match parseValue (s.data.length + 1) s.data with
  | some (v, rest) => if skipWs rest = [] then some v else Option.none
  | Option.none => Option.none

/-! ## ClaudeCodeClient (claude.py) -/

/-- Instance state of `ClaudeCodeClient` after `__init__` (claude.py:49-68):
`self.executable`, `self.workspace` (`workspace or os.getcwd()`, hence a
non-empty path string), `self.approve_mcps`. -/
structure ClaudeCodeClient where
  executable : String
  workspace : String
  approve_mcps : Bool := true
deriving Repr, DecidableEq

/-- `ClaudeCodeClient.MODEL_ALIASES` (claude.py:38-47) viewed as
`dict.get`: the six-entry table keyed by lowercase alias. -/
def claudeAliases (k : String) : Option String :=
  if k = "sonnet" then some "sonnet"
  else if k = "opus" then some "opus"
  else if k = "claude-sonnet" then some "sonnet"
  else if k = "claude-opus" then some "opus"
  else if k = "claude-3-sonnet" then some "sonnet"
  else if k = "claude-3-opus" then some "opus"
  else none

/-- `ClaudeCodeClient._convert_model` (claude.py:75-79):
`if not model: return model` then
`return self.MODEL_ALIASES.get(model.lower(), model)`. -/
def claudeConvertModel (m : String) : String :=
  if m = "" then m else (claudeAliases (pyLower m)).getD m

/-- Argument-vector construction of `ClaudeCodeClient.agent`
(claude.py:105-144): `--print`, `--dangerously-skip-permissions`,
`--tools default`/`--tools ""`, `--model` with alias conversion,
`--resume`, then `--` and the mode-annotated prompt. -/
def claudeBuildCmd (c : ClaudeCodeClient) (r : AgentRequest) : List String :=
  let cmd := [c.executable]
  let cmd := if r.print_output then cmd ++ ["--print"] else cmd
  let cmd := if r.force then cmd ++ ["--dangerously-skip-permissions"] else cmd
  let shouldApprove := r.approve_mcps.getD c.approve_mcps
  let cmd := if shouldApprove then cmd ++ ["--tools", "default"] else cmd ++ ["--tools", ""]
  let cmd :=
    match r.model with
    | some m => if m ≠ "" then cmd ++ ["--model", claudeConvertModel m] else cmd
    | none => cmd
  let cmd :=
    match r.chat_id with
    | some cid => if cid ≠ "" then cmd ++ ["--resume", cid] else cmd
    | none => cmd
  cmd ++ ["--", applyMode r.mode r.prompt]

/-- `ClaudeCodeClient.agent` (claude.py:81-163): build the command, run it,
return `result.stdout.strip()` on success; on `CalledProcessError` raise
`RuntimeError(f"Claude Code execution failed: {e.stderr or e.stdout}")`. -/
def claudeAgent (c : ClaudeCodeClient) (r : AgentRequest)
    (run : List String → RunResult) : Except PyError String :=
  let res := run (claudeBuildCmd c r)
  if res.exitCode = 0 then
    .ok (pyStrip res.stdout)
  else
    .error (.runtimeError ("Claude Code execution failed: " ++ pyStrOr res.stderr res.stdout))

/-- Bootstrap command of `ClaudeCodeClient.create_chat` (claude.py:174-181). -/
def claudeChatCmd (c : ClaudeCodeClient) : List String :=
  [c.executable, "--print", "--output-format", "json",
   "--dangerously-skip-permissions", "--", "Say OK"]

/-- `ClaudeCodeClient.create_chat` (claude.py:165-206): run the bootstrap
command, `json.loads` the stripped stdout, return `output.get("session_id")`
when truthy; `RuntimeError` on missing session id, on decode failure
(`f"Failed to parse Claude output: {e}"`, the decoder's detail elided
here), and on a non-zero exit (`e.stderr or e.stdout`). -/
def claudeCreateChat (c : ClaudeCodeClient) (run : List String → RunResult) :
    Except PyError PyObj :=
  let res := run (claudeChatCmd c)
  if res.exitCode = 0 then
    match jsonLoads (pyStrip res.stdout) with
    | Option.none => .error (.runtimeError "Failed to parse Claude output: <JSONDecodeError>")
    | some output =>
      match pyGetD output "session_id" .null with
      | .error e => .error e
      | .ok sid =>
        if sid.truthy then .ok sid
        else .error (.runtimeError "No session_id found in Claude output")
  else
    .error (.runtimeError ("Failed to create chat: " ++ pyStrOr res.stderr res.stdout))

/-! ## CodexClient (codex.py) -/

/-- Instance state of `CodexClient` after `__init__` (codex.py:29-48). -/
structure CodexClient where
  executable : String
  workspace : String
  approve_mcps : Bool := true
deriving Repr, DecidableEq

/-- Argument-vector construction of `CodexClient.agent` (codex.py:80-113):
`exec --json`, the bypass flag when `force or approve_mcps`, `--model`
without alias conversion, `-C <workspace>`, then either
`resume <chat_id> <prompt>` or the bare prompt. -/
def codexBuildCmd (c : CodexClient) (r : AgentRequest) : List String :=
  let cmd := [c.executable, "exec"]
  let cmd := cmd ++ ["--json"]
  let shouldForce := r.force || r.approve_mcps.getD c.approve_mcps
  let cmd := if shouldForce then cmd ++ ["--dangerously-bypass-approvals-and-sandbox"] else cmd
  let cmd :=
    match r.model with
    | some m => if m ≠ "" then cmd ++ ["--model", m] else cmd
    | none => cmd
  let cmd := if c.workspace ≠ "" then cmd ++ ["-C", c.workspace] else cmd
  let finalPrompt := applyMode r.mode r.prompt
  match r.chat_id with
  | some cid => if cid ≠ "" then cmd ++ ["resume", cid, finalPrompt] else cmd ++ [finalPrompt]
  | none => cmd ++ [finalPrompt]

/-- Gather the strings of a Python list, as `"\n".join` does before
concatenating: a non-string element raises `TypeError`. -/
def strsOf : List PyObj → Except PyError (List String)
  | [] => .ok []
  | .str s :: rest => (strsOf rest).map (fun t => s :: t)
  | _ :: _ => .error (.typeError "sequence item: expected str instance")

/-- Python `sep.join(xs)` on a list of decoded values. -/
def pyJoinStrs (sep : String) (xs : List PyObj) : Except PyError String :=
  (strsOf xs).map (fun ss => joinSep sep ss)

/-- The accumulation loop of `CodexClient.agent` (codex.py:128-142): for
each line, `json.loads`; a decode failure `continue`s; on success take
`data.get("type")`, and for `item.completed` events whose
`item.get("type")` is `agent_message` append the truthy `item.get("text",
"")`. `.get` on a decoded non-dict raises `AttributeError`, which the
`except json.JSONDecodeError` clause does not catch. -/
def codexCollect : List String → Except PyError (List PyObj)
  | [] => .ok []
  | line :: rest =>
    match jsonLoads line with
    | Option.none => codexCollect rest
    | some data =>
      match pyGetD data "type" .null with
      | .error e => .error e
      | .ok ty =>
        if pyEqStr ty "item.completed" then
          match pyGetD data "item" (.dict []) with
          | .error e => .error e
          | .ok item =>
            match pyGetD item "type" .null with
            | .error e => .error e
            | .ok ity =>
              if pyEqStr ity "agent_message" then
                match pyGetD item "text" (.str "") with
                | .error e => .error e
                | .ok text =>
                  if text.truthy then (codexCollect rest).map (fun t => text :: t)
                  else codexCollect rest
              else codexCollect rest
        else codexCollect rest

/-- JSON-lines normalization of `CodexClient.agent` (codex.py:127-144):
`result.stdout.strip().split('\n')`, the accumulation loop, then
`"\n".join(response_text).strip()`. -/
def codexNormalize (stdout : String) : Except PyError String :=
  match codexCollect (pySplitStr (pyStrip stdout) "\n") with
  | .error e => .error e
  | .ok texts =>
    match pyJoinStrs "\n" texts with
    | .error e => .error e
    | .ok joined => .ok (pyStrip joined)

/-- `CodexClient.agent` (codex.py:56-148): build the command, run it,
normalize the JSON-lines stdout on success; on `CalledProcessError` raise
`RuntimeError(f"Codex execution failed: {e.stderr or e.stdout}")`. -/
def codexAgent (c : CodexClient) (r : AgentRequest)
    (run : List String → RunResult) : Except PyError String :=
  let res := run (codexBuildCmd c r)
  if res.exitCode = 0 then codexNormalize res.stdout
  else .error (.runtimeError ("Codex execution failed: " ++ pyStrOr res.stderr res.stdout))

/-- Bootstrap command of `CodexClient.create_chat` (codex.py:159-167). -/
def codexChatCmd (c : CodexClient) : List String :=
  let cmd := [c.executable, "exec", "--json",
              "--dangerously-bypass-approvals-and-sandbox", "Say OK"]
  if c.workspace ≠ "" then cmd ++ ["-C", c.workspace] else cmd

/-- The scanning loop of `CodexClient.create_chat` (codex.py:181-189):
skip undecodable lines; on the first `thread.started` event whose
`thread_id` is truthy, return that id; `.get` on a decoded non-dict
raises `AttributeError`. -/
def codexScanThread : List String → Except PyError (Option PyObj)
  | [] => .ok Option.none
  | line :: rest =>
    match jsonLoads line with
    | Option.none => codexScanThread rest
    | some data =>
      match pyGetD data "type" .null with
      | .error e => .error e
      | .ok ty =>
        if pyEqStr ty "thread.started" then
          match pyGetD data "thread_id" .null with
          | .error e => .error e
          | .ok tid => if tid.truthy then .ok (some tid) else codexScanThread rest
        else codexScanThread rest

/-- `CodexClient.create_chat` (codex.py:150-195): run the bootstrap
command, scan `result.stdout.strip().split('\n')` for the thread id;
`RuntimeError("Could not find thread_id in Codex output")` when the scan
finds none, `RuntimeError(f"Failed to create chat: {e.stderr or
e.stdout}")` on a non-zero exit. -/
def codexCreateChat (c : CodexClient) (run : List String → RunResult) :
    Except PyError PyObj :=
  let res := run (codexChatCmd c)
  if res.exitCode = 0 then
    match codexScanThread (pySplitStr (pyStrip res.stdout) "\n") with
    | .error e => .error e
    | .ok (some tid) => .ok tid
    | .ok Option.none => .error (.runtimeError "Could not find thread_id in Codex output")
  else
    .error (.runtimeError ("Failed to create chat: " ++ pyStrOr res.stderr res.stdout))

/-- Well-typedness of one stdout line for the claim about JSON-lines
normalization: if the line decodes at all it is a JSON object, and when
it is an `item.completed` event its `item` field is an object (or
absent) whose `text` field is a string (or absent). Outside this set the
accumulation loop raises (`.get` on a non-dict, or `join` on a
non-string) instead of normalizing. -/
def codexLineOk (line : String) : Bool :=
  match jsonLoads line with
  | Option.none => true
  | some (PyObj.dict es) =>
    if pyEqStr ((dictGet es "type").getD .null) "item.completed" then
      match (dictGet es "item").getD (.dict []) with
      | PyObj.dict ies =>
        if pyEqStr ((dictGet ies "type").getD .null) "agent_message" then
          match (dictGet ies "text").getD (.str "") with
          | PyObj.str _ => true
          | _ => false
        else true
      | _ => false
    else true
  | some _ => false

/-- Modelled from the spec wording of the JSON-lines normalization claim:
the non-empty `text` fields of the `item.completed`/`agent_message`
events of the decodable lines, in stream order. Compared against
`codexCollect` in the refinement theorem. -/
def codexSpecTexts (lines : List String) : List String :=
  lines.filterMap (fun line =>
    match jsonLoads line with
    | some (PyObj.dict es) =>
      if pyEqStr ((dictGet es "type").getD .null) "item.completed" then
        match (dictGet es "item").getD (.dict []) with
        | PyObj.dict ies =>
          if pyEqStr ((dictGet ies "type").getD .null) "agent_message" then
            match (dictGet ies "text").getD (.str "") with
            | PyObj.str s => if s ≠ "" then some s else Option.none
            | _ => Option.none
          else Option.none
        | _ => Option.none
      else Option.none
    | _ => Option.none)

/-- Well-typedness of one stdout line for the claim about the session
bootstrap scan: undecodable, or a JSON object. -/
def codexChatLineOk (line : String) : Bool :=
  match jsonLoads line with
  | Option.none => true
  | some (PyObj.dict _) => true
  | some _ => false

/-- Modelled from the spec wording of the session-bootstrap claim: the
`thread_id` of the first `thread.started` event whose `thread_id` is
truthy, ignoring every other event. Compared against `codexScanThread`
in the refinement theorem. -/
def codexSpecThread (lines : List String) : Option PyObj :=
  lines.findSome? (fun line =>
    match jsonLoads line with
    | some (PyObj.dict es) =>
      if pyEqStr ((dictGet es "type").getD .null) "thread.started" then
        (fun tid => if tid.truthy then some tid else Option.none)
          ((dictGet es "thread_id").getD .null)
      else Option.none
    | _ => Option.none)

/-! ## GeminiClient (gemini.py) -/

/-- Instance state of `GeminiClient` after `__init__` (gemini.py:47-67). -/
structure GeminiClient where
  executable : String
  workspace : String
  approve_mcps : Bool := true
deriving Repr, DecidableEq

/-- `GeminiClient.MODEL_ALIASES` (gemini.py:36-45) viewed as `dict.get`. -/
def geminiAliases (k : String) : Option String :=
  if k = "gemini-3-flash" then some "flash"
  else if k = "gemini-3.0-flash" then some "flash"
  else if k = "gemini-3-pro" then some "pro"
  else if k = "gemini-3.0-pro" then some "pro"
  else if k = "gemini-2.0-flash" then some "flash"
  else if k = "gemini-2.0-pro" then some "pro"
  else if k = "gemini-1.5-flash" then some "flash"
  else if k = "gemini-1.5-pro" then some "pro"
  else none

/-- `GeminiClient._convert_model` (gemini.py:74-78). -/
def geminiConvertModel (m : String) : String :=
  if m = "" then m else (geminiAliases (pyLower m)).getD m

/-- Argument-vector construction of `GeminiClient.agent`
(gemini.py:104-133): `--yolo` when `force or approve_mcps`, `--model`
with alias conversion, `--resume`, then the bare positional prompt. -/
def geminiBuildCmd (c : GeminiClient) (r : AgentRequest) : List String :=
  let cmd := [c.executable]
  let shouldYolo := r.force || r.approve_mcps.getD c.approve_mcps
  let cmd := if shouldYolo then cmd ++ ["--yolo"] else cmd
  let cmd :=
    match r.model with
    | some m => if m ≠ "" then cmd ++ ["--model", geminiConvertModel m] else cmd
    | none => cmd
  let cmd :=
    match r.chat_id with
    | some cid => if cid ≠ "" then cmd ++ ["--resume", cid] else cmd
    | none => cmd
  cmd ++ [applyMode r.mode r.prompt]

/-- The Node.js-version detection of gemini.py:148 and 192: both marker
substrings occur in the diagnostic text. -/
def geminiHasNodeMarkers (em : String) : Bool :=
  strContains em "SyntaxError: Invalid regular expression flags" && strContains em "Node.js"

/-- The replacement message of gemini.py:149-152 and 193-196:
`error_msg.split('Node.js ')[-1].strip()` spliced into the upgrade hint. -/
def geminiNodeMsg (em : String) : String :=
  "Gemini CLI requires Node.js 20 or higher. Current version: " ++
    pyStrip ((pySplitStr em "Node.js ").getLastD em) ++
    "\nPlease upgrade Node.js to use GeminiClient."

/-- `GeminiClient.agent` (gemini.py:80-153): build the command, run it,
return `result.stdout.strip()` on success; on `CalledProcessError` raise
the Node.js-upgrade `RuntimeError` when the markers occur in
`e.stderr or e.stdout`, else `RuntimeError(f"Gemini execution failed:
{error_msg}")`. -/
def geminiAgent (c : GeminiClient) (r : AgentRequest)
    (run : List String → RunResult) : Except PyError String :=
  let res := run (geminiBuildCmd c r)
  if res.exitCode = 0 then .ok (pyStrip res.stdout)
  else
    let em := pyStrOr res.stderr res.stdout
    .error (.runtimeError
      (if geminiHasNodeMarkers em then geminiNodeMsg em
       else "Gemini execution failed: " ++ em))

/-- Bootstrap command of `GeminiClient.create_chat` (gemini.py:164-169). -/
def geminiChatCmd (c : GeminiClient) : List String :=
  [c.executable, "--output-format", "json", "--yolo", "Say OK"]

/-- `GeminiClient.create_chat` (gemini.py:155-199): like the Claude
bootstrap but with the Node.js-version rewrite on the failure path. -/
def geminiCreateChat (c : GeminiClient) (run : List String → RunResult) :
    Except PyError PyObj :=
  let res := run (geminiChatCmd c)
  if res.exitCode = 0 then
    match jsonLoads (pyStrip res.stdout) with
    | Option.none => .error (.runtimeError "Failed to parse Gemini output: <JSONDecodeError>")
    | some output =>
      match pyGetD output "session_id" .null with
      | .error e => .error e
      | .ok sid =>
        if sid.truthy then .ok sid
        else .error (.runtimeError "No session_id found in Gemini output")
  else
    let em := pyStrOr res.stderr res.stdout
    .error (.runtimeError
      (if geminiHasNodeMarkers em then geminiNodeMsg em
       else "Failed to create chat: " ++ em))

/-! ## CursorAgentClient (cursor.py)

`CursorAgentClient.agent` and `.create_chat` call `self._run_command`,
a name defined nowhere: not in the instance attributes set by
`__init__`, not in the class body of `CursorAgentClient` (cursor.py),
not in `BaseAgentClient` (base.py), nor anywhere else in the package
(the only occurrences of `_run_command` in the source are the two call
sites). Attribute resolution therefore raises `AttributeError` inside
the `try` block, and `except subprocess.CalledProcessError` does not
catch it. The operations below return the raised error together with
the list of child processes spawned, which is empty on the
`AttributeError` path. -/

/-- Instance state of `CursorAgentClient` after `__init__` (cursor.py:27-46). -/
structure CursorAgentClient where
  executable : String
  workspace : String
  approve_mcps : Bool := true
deriving Repr, DecidableEq

/-- Names bound in the class body of `CursorAgentClient` (cursor.py). -/
def cursorAgentClientAttrs : List String :=
  ["__init__", "agent_path", "agent", "create_chat"]

/-- Names bound in the class body of `BaseAgentClient` (base.py). -/
def baseAgentClientAttrs : List String :=
  ["__init__", "_check_executable", "agent", "create_chat", "ask", "debug",
   "plan", "run", "is_available", "__repr__"]

/-- Instance attributes set by `__init__` (base.py:47-49, cursor.py:46). -/
def cursorInstanceAttrs : List String :=
  ["executable", "workspace", "auto_approve", "approve_mcps"]

/-- Does `self._run_command` resolve on a `CursorAgentClient` instance?
Python looks through the instance dict and the MRO (`CursorAgentClient`,
`BaseAgentClient`, `ABC`, `object`, none of which define it). -/
def cursorResolvesRunCommand : Bool :=
  cursorInstanceAttrs.contains "_run_command" ||
  cursorAgentClientAttrs.contains "_run_command" ||
  baseAgentClientAttrs.contains "_run_command"

/-- Argument-vector construction of `CursorAgentClient.agent`
(cursor.py:75-105): `--print`, `--force`, `--approve-mcps`, `--model`,
`--resume`, `--workspace`, then the `agent <prompt>` trailing subcommand. -/
def cursorBuildCmd (c : CursorAgentClient) (r : AgentRequest) : List String :=
  let cmd := [c.executable]
  let cmd := if r.print_output then cmd ++ ["--print"] else cmd
  let cmd := if r.force then cmd ++ ["--force"] else cmd
  let shouldApprove := r.approve_mcps.getD c.approve_mcps
  let cmd := if shouldApprove then cmd ++ ["--approve-mcps"] else cmd
  let cmd :=
    match r.model with
    | some m => if m ≠ "" then cmd ++ ["--model", m] else cmd
    | none => cmd
  let cmd :=
    match r.chat_id with
    | some cid => if cid ≠ "" then cmd ++ ["--resume", cid] else cmd
    | none => cmd
  let cmd := if c.workspace ≠ "" then cmd ++ ["--workspace", c.workspace] else cmd
  cmd ++ ["agent", applyMode r.mode r.prompt]

/-- `CursorAgentClient.agent` (cursor.py:53-112): builds the command and
then evaluates `self._run_command(cmd)`. The first component is the
outcome, the second the spawned child processes. The then-branch is what
the interpreter would run were the name defined; it is dead because
`cursorResolvesRunCommand` is false. -/
def cursorAgent (c : CursorAgentClient) (r : AgentRequest)
    (run : List String → RunResult) : Except PyError String × List (List String) :=
  let cmd := cursorBuildCmd c r
  if cursorResolvesRunCommand then
    let res := run cmd
    (if res.exitCode = 0 then .ok (pyStrip res.stdout)
     else .error (.runtimeError ("Cursor Agent execution failed: " ++ pyStrOr res.stderr res.stdout)),
     [cmd])
  else
    (.error (.attributeError "_run_command"), [])

/-- `CursorAgentClient.create_chat` (cursor.py:114-125): evaluates
`self._run_command([self.executable, "create-chat"])`, then
`result.stdout.strip().split()[-1]`; its handler raises
`RuntimeError(f"Failed to create chat: {e.stderr}")` with no stdout
fallback. Dead then-branch as in `cursorAgent`. -/
def cursorCreateChat (c : CursorAgentClient)
    (run : List String → RunResult) : Except PyError String × List (List String) :=
  let cmd := [c.executable, "create-chat"]
  if cursorResolvesRunCommand then
    let res := run cmd
    (if res.exitCode = 0 then
       match (pySplitWs (pyStrip res.stdout)).getLast? with
       | some t => .ok t
       | Option.none => .error (.indexError "list index out of range")
     else .error (.runtimeError ("Failed to create chat: " ++ res.stderr)),
     [cmd])
  else
    (.error (.attributeError "_run_command"), [])

end PyCursorAgent

namespace PyCursorAgent

/-- Concrete `ClaudeCodeClient()` built with the constructor defaults
(`agent_path="claude"`, `approve_mcps=True`); the workspace stands for the
caller's current directory. -/
def claudeDefault : ClaudeCodeClient :=
  { executable := "claude", workspace := "/work", approve_mcps := true }

/-- The example request of the spec scenario:
`{prompt: "2+2?", mode: "ask", model: "sonnet"}` with all remaining
parameters at the `agent` defaults. -/
def exampleAskRequest : AgentRequest :=
  { prompt := "2+2?", model := some "sonnet", mode := "ask" }

/-- Concrete `CodexClient()` built with the constructor defaults. -/
def codexDefault : CodexClient :=
  { executable := "codex", workspace := "/work", approve_mcps := true }

/-- Concrete `GeminiClient()` built with the constructor defaults. -/
def geminiDefault : GeminiClient :=
  { executable := "gemini", workspace := "/work", approve_mcps := true }

/-- Concrete `CursorAgentClient()` built with the constructor defaults. -/
def cursorDefault : CursorAgentClient :=
  { executable := "cursor-agent", workspace := "/work", approve_mcps := true }

end PyCursorAgent

namespace PyCursorAgent

/-- C4: For the request `{prompt: "2+2?", mode: "ask", model: "sonnet"}` on
`ClaudeCodeClient` with default force and approve settings, the translated
argument vector after the executable is exactly `[--print,
--dangerously-skip-permissions, --tools, default, --model, sonnet, --,
"[MODE: ASK - Please answer the question without modifying any files]
2+2?"]` in that order, and on exit status 0 with stdout `"4"` the call
yields content `"4"`. -/
theorem c4_claude_example_vector :
    claudeBuildCmd claudeDefault exampleAskRequest =
      ["claude", "--print", "--dangerously-skip-permissions", "--tools", "default",
       "--model", "sonnet", "--",
       "[MODE: ASK - Please answer the question without modifying any files] 2+2?"] ∧
    claudeAgent claudeDefault exampleAskRequest (fun _ => ⟨0, "4", ""⟩) = .ok "4" := by
  constructor <;> rfl

/-- C1: `CursorAgentClient.agent` and `CursorAgentClient.create_chat` call
`self._run_command`, a method defined neither on `CursorAgentClient` nor
on `BaseAgentClient` nor anywhere else in the package, so for every input
both operations raise `AttributeError` before any child process is
spawned (the spawn log stays empty) and never return a response. -/
theorem c1_cursor_run_command_missing (c : CursorAgentClient) (r : AgentRequest)
    (run : List String → RunResult) :
    cursorResolvesRunCommand = false ∧
    cursorAgent c r run = (.error (.attributeError "_run_command"), []) ∧
    cursorCreateChat c run = (.error (.attributeError "_run_command"), []) :=
  ⟨rfl, rfl, rfl⟩

/-- C2 counterexample: with the out-of-enumeration mode `"frobnicate"`,
`ClaudeCodeClient.agent` and `CodexClient.agent` do not reject the
request — the child process runs and its output is returned. -/
theorem c2_counterexample :
    claudeAgent claudeDefault { prompt := "p", mode := "frobnicate" }
      (fun _ => ⟨0, "ok", ""⟩) = .ok "ok" ∧
    codexAgent codexDefault { prompt := "p", mode := "frobnicate" }
      (fun _ => ⟨0, "", ""⟩) = .ok "" := by
  constructor <;> rfl

/-- C2 amended: a request whose mode lies outside {ask, agent, planner,
debug} is not rejected: every backend treats it exactly like mode
`"agent"` — the prompt passes through unmodified and the translated
argument vector equals the one for mode `"agent"`; no `UnsupportedMode`
error exists. -/
theorem c2_unknown_mode_like_agent (c1 : ClaudeCodeClient) (c2 : CodexClient)
    (c3 : GeminiClient) (c4 : CursorAgentClient) (r : AgentRequest)
    (h1 : r.mode ≠ "ask") (h2 : r.mode ≠ "debug") (h3 : r.mode ≠ "planner") :
    applyMode r.mode r.prompt = r.prompt ∧
    claudeBuildCmd c1 r = claudeBuildCmd c1 { r with mode := "agent" } ∧
    codexBuildCmd c2 r = codexBuildCmd c2 { r with mode := "agent" } ∧
    geminiBuildCmd c3 r = geminiBuildCmd c3 { r with mode := "agent" } ∧
    cursorBuildCmd c4 r = cursorBuildCmd c4 { r with mode := "agent" } := by
  have key : applyMode r.mode r.prompt = r.prompt := by
    simp [applyMode, h1, h2, h3]
  refine ⟨key, ?_, ?_, ?_, ?_⟩ <;>
    simp [claudeBuildCmd, codexBuildCmd, geminiBuildCmd, cursorBuildCmd, applyMode, h1, h2, h3]

/-- C2 witness: the amended statement at the concrete mode `"bogus"`. -/
theorem c2_witness :
    applyMode "bogus" "p" = "p" ∧
    claudeBuildCmd claudeDefault { prompt := "p", mode := "bogus" } =
      claudeBuildCmd claudeDefault { prompt := "p", mode := "agent" } ∧
    codexBuildCmd codexDefault { prompt := "p", mode := "bogus" } =
      codexBuildCmd codexDefault { prompt := "p", mode := "agent" } ∧
    geminiBuildCmd geminiDefault { prompt := "p", mode := "bogus" } =
      geminiBuildCmd geminiDefault { prompt := "p", mode := "agent" } ∧
    cursorBuildCmd cursorDefault { prompt := "p", mode := "bogus" } =
      cursorBuildCmd cursorDefault { prompt := "p", mode := "agent" } :=
  c2_unknown_mode_like_agent claudeDefault codexDefault geminiDefault cursorDefault
    { prompt := "p", mode := "bogus" } (by decide) (by decide) (by decide)

/-- C5: for every backend adapter and every prompt, mode `ask`/`debug`/
`planner` prefix the prompt with exactly the documented annotations,
mode `agent` leaves the prompt unchanged, and the mode modifies no
argument other than the prompt: the final argument of every translated
vector is the mode-annotated prompt, and everything before it is
identical to the vector built for mode `"agent"`. -/
theorem c5_mode_injection (prompt : String) (c1 : ClaudeCodeClient) (c2 : CodexClient)
    (c3 : GeminiClient) (c4 : CursorAgentClient) (r : AgentRequest) :
    applyMode "ask" prompt =
      "[MODE: ASK - Please answer the question without modifying any files] " ++ prompt ∧
    applyMode "debug" prompt =
      "[MODE: DEBUG - Focus on finding and fixing bugs in the code] " ++ prompt ∧
    applyMode "planner" prompt =
      "[MODE: PLANNER - Create a detailed plan for the following task but do not execute yet] " ++ prompt ∧
    applyMode "agent" prompt = prompt ∧
    (claudeBuildCmd c1 r).dropLast = (claudeBuildCmd c1 { r with mode := "agent" }).dropLast ∧
    (claudeBuildCmd c1 r).getLast? = some (applyMode r.mode r.prompt) ∧
    (codexBuildCmd c2 r).dropLast = (codexBuildCmd c2 { r with mode := "agent" }).dropLast ∧
    (codexBuildCmd c2 r).getLast? = some (applyMode r.mode r.prompt) ∧
    (geminiBuildCmd c3 r).dropLast = (geminiBuildCmd c3 { r with mode := "agent" }).dropLast ∧
    (geminiBuildCmd c3 r).getLast? = some (applyMode r.mode r.prompt) ∧
    (cursorBuildCmd c4 r).dropLast = (cursorBuildCmd c4 { r with mode := "agent" }).dropLast ∧
    (cursorBuildCmd c4 r).getLast? = some (applyMode r.mode r.prompt) := by
  refine ⟨rfl, rfl, rfl, rfl, ?_, ?_, ?_, ?_, ?_, ?_, ?_, ?_⟩
  · simp [claudeBuildCmd]
  · simp [claudeBuildCmd]
  · rcases h : r.chat_id with _ | cid
    · simp [codexBuildCmd, h]
    · by_cases hc : cid = "" <;> simp [codexBuildCmd, h, hc]
  · rcases h : r.chat_id with _ | cid
    · simp [codexBuildCmd, h]
    · by_cases hc : cid = "" <;> simp [codexBuildCmd, h, hc]
  · simp [geminiBuildCmd]
  · simp [geminiBuildCmd]
  · simp [cursorBuildCmd]
  · simp [cursorBuildCmd]

/-- Every value of the Claude alias table is a backend-native token. -/
theorem claudeAliases_val {k v : String} (h : claudeAliases k = some v) :
    v = "sonnet" ∨ v = "opus" := by
  unfold claudeAliases at h
  split_ifs at h
  all_goals first
    | exact Option.noConfusion h
    | (injection h with h; subst h; decide)

/-- Every value of the Gemini alias table is a backend-native token. -/
theorem geminiAliases_val {k v : String} (h : geminiAliases k = some v) :
    v = "flash" ∨ v = "pro" := by
  unfold geminiAliases at h
  split_ifs at h
  all_goals first
    | exact Option.noConfusion h
    | (injection h with h; subst h; decide)

/-- The Claude alias resolver is idempotent. -/
theorem claudeConvertModel_idem (m : String) :
    claudeConvertModel (claudeConvertModel m) = claudeConvertModel m := by
  by_cases h0 : m = ""
  · subst h0; rfl
  · rcases ha : claudeAliases (pyLower m) with _ | v
    · have hm : claudeConvertModel m = m := by simp [claudeConvertModel, h0, ha]
      simp [hm]
    · have hm : claudeConvertModel m = v := by simp [claudeConvertModel, h0, ha]
      rw [hm]
      rcases claudeAliases_val ha with h | h <;> subst h <;> rfl

/-- The Gemini alias resolver is idempotent. -/
theorem geminiConvertModel_idem (m : String) :
    geminiConvertModel (geminiConvertModel m) = geminiConvertModel m := by
  by_cases h0 : m = ""
  · subst h0; rfl
  · rcases ha : geminiAliases (pyLower m) with _ | v
    · have hm : geminiConvertModel m = m := by simp [geminiConvertModel, h0, ha]
      simp [hm]
    · have hm : geminiConvertModel m = v := by simp [geminiConvertModel, h0, ha]
      rw [hm]
      rcases geminiAliases_val ha with h | h <;> subst h <;> rfl

/-- C9: each per-backend alias resolver returns the table entry keyed by
the lowercased token when one exists and otherwise the input unchanged
(so the lookup is case-insensitive); already-backend-native tokens such
as `sonnet`, `opus`, `flash`, `pro` resolve to themselves; and resolution
is idempotent. -/
theorem c9_alias_resolver (m : String) :
    claudeConvertModel m = (claudeAliases (pyLower m)).getD m ∧
    geminiConvertModel m = (geminiAliases (pyLower m)).getD m ∧
    claudeConvertModel (claudeConvertModel m) = claudeConvertModel m ∧
    geminiConvertModel (geminiConvertModel m) = geminiConvertModel m ∧
    claudeConvertModel "sonnet" = "sonnet" ∧
    claudeConvertModel "opus" = "opus" ∧
    geminiConvertModel "flash" = "flash" ∧
    geminiConvertModel "pro" = "pro" ∧
    claudeConvertModel "SONNET" = "sonnet" ∧
    claudeConvertModel "Claude-3-Opus" = "opus" ∧
    geminiConvertModel "GEMINI-1.5-FLASH" = "flash" := by
  refine ⟨?_, ?_, claudeConvertModel_idem m, geminiConvertModel_idem m,
    rfl, rfl, rfl, rfl, rfl, rfl, rfl⟩
  · by_cases h : m = ""
    · subst h; rfl
    · simp [claudeConvertModel, h]
  · by_cases h : m = ""
    · subst h; rfl
    · simp [geminiConvertModel, h]

/-- C10: `ask` always calls `agent` with `force=False`, yet on the two
backends that couple force and approve into one bypass flag, an instance
constructed with the default `approve_mcps=True` still emits the full
bypass flag for every ask call, because the emitted flag is the
disjunction of `force` and the instance's approve default. -/
theorem c10_ask_emits_bypass (exe ws prompt : String) (model : Option String) :
    (askRequest prompt model).force = false ∧
    "--dangerously-bypass-approvals-and-sandbox" ∈
      codexBuildCmd { executable := exe, workspace := ws, approve_mcps := true }
        (askRequest prompt model) ∧
    "--yolo" ∈
      geminiBuildCmd { executable := exe, workspace := ws, approve_mcps := true }
        (askRequest prompt model) := by
  refine ⟨rfl, ?_, ?_⟩
  · rcases model with _ | m
    · by_cases hw : ws = "" <;> simp [codexBuildCmd, askRequest, hw]
    · by_cases hm : m = "" <;> by_cases hw : ws = "" <;>
        simp [codexBuildCmd, askRequest, hm, hw]
  · rcases model with _ | m
    · simp [geminiBuildCmd, askRequest]
    · by_cases hm : m = "" <;> simp [geminiBuildCmd, askRequest, hm]

/-- C3 counterexample: two runs of `ClaudeCodeClient.agent` whose captured
stdouts differ (`"4"` vs `" 4\n"`) return identical values, so the
returned value carries only the normalized content — it cannot be an
`AgentResponse` record whose `raw_output` field holds the untouched
captured stdout, since that record would distinguish the two runs. -/
theorem c3_counterexample :
    claudeAgent claudeDefault exampleAskRequest (fun _ => ⟨0, "4", ""⟩) =
      claudeAgent claudeDefault exampleAskRequest (fun _ => ⟨0, " 4\n", ""⟩) ∧
    (" 4\n" : String) ≠ "4" := by
  exact ⟨rfl, by decide⟩

/-- C3 amended: for every successful call (exit status 0) the agent
operation returns only the normalized content string — the trimmed
stdout for `ClaudeCodeClient` and `GeminiClient`, the JSON-lines
extraction for `CodexClient`; no `AgentResponse` record is constructed. -/
theorem c3_agent_returns_content (c1 : ClaudeCodeClient) (c3 : GeminiClient)
    (c2 : CodexClient) (r : AgentRequest) (run : List String → RunResult)
    (h1 : (run (claudeBuildCmd c1 r)).exitCode = 0)
    (h2 : (run (geminiBuildCmd c3 r)).exitCode = 0)
    (h3 : (run (codexBuildCmd c2 r)).exitCode = 0) :
    claudeAgent c1 r run = .ok (pyStrip (run (claudeBuildCmd c1 r)).stdout) ∧
    geminiAgent c3 r run = .ok (pyStrip (run (geminiBuildCmd c3 r)).stdout) ∧
    codexAgent c2 r run = codexNormalize (run (codexBuildCmd c2 r)).stdout := by
  refine ⟨?_, ?_, ?_⟩ <;> simp [claudeAgent, geminiAgent, codexAgent, h1, h2, h3]

/-- C3 witness: the amended statement at a concrete run. -/
theorem c3_witness :
    claudeAgent claudeDefault { prompt := "p" } (fun _ => ⟨0, " x \n", ""⟩) = .ok "x" ∧
    geminiAgent geminiDefault { prompt := "p" } (fun _ => ⟨0, " x \n", ""⟩) = .ok "x" ∧
    codexAgent codexDefault { prompt := "p" } (fun _ => ⟨0, " x \n", ""⟩) =
      codexNormalize " x \n" :=
  c3_agent_returns_content claudeDefault geminiDefault codexDefault { prompt := "p" }
    (fun _ => ⟨0, " x \n", ""⟩) rfl rfl rfl

/-- C6 counterexample: the stdout `"5"` decodes successfully (to a JSON
number, not an object), and `CodexClient.agent` then raises
`AttributeError` from `data.get` instead of normalizing — the claimed
skip/extract/join/trim result does not exist for this stdout. -/
theorem c6_counterexample :
    codexAgent codexDefault { prompt := "p" } (fun _ => ⟨0, "5", ""⟩) =
      .error (.attributeError "get") := rfl

/-- Gathering a list of wrapped strings never raises. -/
theorem strsOf_map (xs : List String) : strsOf (xs.map PyObj.str) = .ok xs := by
  induction xs with
  | nil => rfl
  | cons x xs ih => simp [strsOf, ih, Except.map]

/-- Joining wrapped strings is joining the strings. -/
theorem pyJoinStrs_strs (sep : String) (xs : List String) :
    pyJoinStrs sep (xs.map PyObj.str) = .ok (joinSep sep xs) := by
  simp [pyJoinStrs, strsOf_map, Except.map]

/-- On well-typed streams the accumulation loop of `CodexClient.agent`
collects exactly the texts described by the claim. -/
theorem codexCollect_ok (lines : List String) (h : lines.all codexLineOk = true) :
    codexCollect lines = .ok ((codexSpecTexts lines).map PyObj.str) := by
  induction lines with
  | nil => rfl
  | cons line rest ih =>
    rw [List.all_cons, Bool.and_eq_true] at h
    obtain ⟨hline, hrest⟩ := h
    have ihr := ih hrest
    unfold codexLineOk at hline
    rcases hj : jsonLoads line with _ | data
    · rw [hj] at hline
      simpa [codexCollect, codexSpecTexts, hj] using ihr
    · rw [hj] at hline
      rcases data with _ | b | lex | s | xs | es <;> simp at hline
      by_cases hty : pyEqStr ((dictGet es "type").getD .null) "item.completed"
      · simp only [hty, Bool.true_eq_false, false_or] at hline
        rcases hitem : (dictGet es "item").getD (.dict []) with _ | b2 | lex2 | s2 | xs2 | ies <;>
          rw [hitem] at hline <;> simp at hline
        by_cases hity : pyEqStr ((dictGet ies "type").getD .null) "agent_message"
        · simp only [hity, Bool.not_true, Bool.false_or] at hline
          rcases htext : (dictGet ies "text").getD (.str "") with _ | b3 | lex3 | s3 | xs3 | es3 <;>
            rw [htext] at hline <;> simp at hline
          by_cases hs : s3 = ""
          · subst hs
            simpa [codexCollect, codexSpecTexts, hj, pyGetD, hty, hitem, hity, htext,
              PyObj.truthy] using ihr
          · simp [codexCollect, codexSpecTexts, hj, pyGetD, hty, hitem, hity, htext,
              PyObj.truthy, hs, ihr, Except.map]
        · simp [codexCollect, codexSpecTexts, hj, pyGetD, hty, hitem, hity, ihr]
      · simp [codexCollect, codexSpecTexts, hj, pyGetD, hty, ihr]

/-- C6 amended: for every stdout whose successfully-decoded lines are
JSON objects with well-typed `item`/`text` fields, the normalization of
`CodexClient.agent` skips every line that fails JSON decoding, collects
the non-empty text fields of `item.completed`/`agent_message` events in
stream order, joins them with newline separators and trims the result;
a decodable non-object line (or an ill-typed `item`/`text`) instead
raises an `AttributeError`/`TypeError`. -/
theorem c6_jsonl_normalization (stdout : String)
    (h : (pySplitStr (pyStrip stdout) "\n").all codexLineOk = true) :
    codexNormalize stdout =
      .ok (pyStrip (joinSep "\n" (codexSpecTexts (pySplitStr (pyStrip stdout) "\n")))) := by
  simp [codexNormalize, codexCollect_ok _ h, pyJoinStrs_strs]

set_option maxRecDepth 8000 in
/-- C6 witness: the amended statement at a concrete stream holding a
non-JSON diagnostic line, two completed agent messages, an event of
another type, an empty-text message and a non-completed item. -/
theorem c6_witness :
    (pySplitStr (pyStrip "noise [warn]\n\x7b\"type\": \"item.completed\", \"item\": \x7b\"type\": \"agent_message\", \"text\": \"Hello\"\x7d\x7d\n\x7b\"type\": \"turn.completed\"\x7d\n\x7b\"type\": \"item.completed\", \"item\": \x7b\"type\": \"agent_message\", \"text\": \"\"\x7d\x7d\n\x7b\"type\": \"item.completed\", \"item\": \x7b\"type\": \"reasoning\"\x7d\x7d\n\x7b\"type\": \"item.completed\", \"item\": \x7b\"type\": \"agent_message\", \"text\": \"World\"\x7d\x7d") "\n").all codexLineOk = true ∧
    codexNormalize "noise [warn]\n\x7b\"type\": \"item.completed\", \"item\": \x7b\"type\": \"agent_message\", \"text\": \"Hello\"\x7d\x7d\n\x7b\"type\": \"turn.completed\"\x7d\n\x7b\"type\": \"item.completed\", \"item\": \x7b\"type\": \"agent_message\", \"text\": \"\"\x7d\x7d\n\x7b\"type\": \"item.completed\", \"item\": \x7b\"type\": \"reasoning\"\x7d\x7d\n\x7b\"type\": \"item.completed\", \"item\": \x7b\"type\": \"agent_message\", \"text\": \"World\"\x7d\x7d" =
      .ok "Hello\nWorld" :=
  ⟨rfl, c6_jsonl_normalization _ rfl⟩

/-- C7 counterexample: a decodable non-object line ahead of the
`thread.started` event makes `CodexClient.create_chat` raise
`AttributeError` instead of returning the thread id `"t1"` that the
claim promises. -/
theorem c7_counterexample :
    codexCreateChat codexDefault
      (fun _ => ⟨0, "5\n\x7b\"type\": \"thread.started\", \"thread_id\": \"t1\"\x7d", ""⟩) =
      .error (.attributeError "get") := rfl

/-- On object-only streams the bootstrap scan of `CodexClient.create_chat`
finds exactly the thread id described by the claim. -/
theorem codexScanThread_ok (lines : List String) (h : lines.all codexChatLineOk = true) :
    codexScanThread lines = .ok (codexSpecThread lines) := by
  induction lines with
  | nil => rfl
  | cons line rest ih =>
    rw [List.all_cons, Bool.and_eq_true] at h
    obtain ⟨hline, hrest⟩ := h
    have ihr := ih hrest
    unfold codexChatLineOk at hline
    rcases hj : jsonLoads line with _ | data
    · simpa [codexScanThread, codexSpecThread, hj] using ihr
    · rw [hj] at hline
      rcases data with _ | b | lex | s | xs | es <;> simp at hline
      by_cases hty : pyEqStr ((dictGet es "type").getD .null) "thread.started"
      · by_cases htid : ((dictGet es "thread_id").getD PyObj.null).truthy
        · simp [codexScanThread, codexSpecThread, hj, pyGetD, hty, htid]
        · simpa [codexScanThread, codexSpecThread, hj, pyGetD, hty, htid] using ihr
      · simpa [codexScanThread, codexSpecThread, hj, pyGetD, hty] using ihr

/-- C7 amended: restricted to streams whose decodable lines are JSON
objects, `create_chat` returns the `thread_id` of the first
`thread.started` event whose `thread_id` is truthy, ignoring every other
event (including everything after that event), and raises
`RuntimeError("Could not find thread_id in Codex output")` when no such
event appears before the end of the stream; a decodable non-object line
reached by the scan instead raises `AttributeError`. -/
theorem c7_thread_scan (c : CodexClient) (run : List String → RunResult)
    (h0 : (run (codexChatCmd c)).exitCode = 0)
    (h : (pySplitStr (pyStrip (run (codexChatCmd c)).stdout) "\n").all codexChatLineOk = true) :
    codexCreateChat c run =
      (match codexSpecThread (pySplitStr (pyStrip (run (codexChatCmd c)).stdout) "\n") with
       | some tid => .ok tid
       | Option.none => .error (.runtimeError "Could not find thread_id in Codex output")) ∧
    (∀ rest : List String,
      codexScanThread ("\x7b\"type\": \"thread.started\", \"thread_id\": \"t1\"\x7d" :: rest) =
        .ok (some (.str "t1"))) := by
  refine ⟨?_, fun rest => rfl⟩
  rcases hs : codexSpecThread (pySplitStr (pyStrip (run (codexChatCmd c)).stdout) "\n")
    with _ | tid <;>
    simp [codexCreateChat, h0, codexScanThread_ok _ h, hs]

set_option maxRecDepth 8000 in
/-- C7 witness: the amended statement at a concrete stream with a
diagnostic line, an event of another type, then two started events. -/
theorem c7_witness :
    ((fun (_ : List String) => (⟨0, "junk\n\x7b\"type\": \"turn.started\"\x7d\n\x7b\"type\": \"thread.started\", \"thread_id\": \"abc\"\x7d\n\x7b\"type\": \"thread.started\", \"thread_id\": \"zzz\"\x7d", ""⟩ : RunResult)) (codexChatCmd codexDefault)).exitCode = 0 ∧
    codexCreateChat codexDefault
      (fun _ => ⟨0, "junk\n\x7b\"type\": \"turn.started\"\x7d\n\x7b\"type\": \"thread.started\", \"thread_id\": \"abc\"\x7d\n\x7b\"type\": \"thread.started\", \"thread_id\": \"zzz\"\x7d", ""⟩) =
      .ok (.str "abc") :=
  ⟨rfl, (c7_thread_scan codexDefault
    (fun _ => ⟨0, "junk\n\x7b\"type\": \"turn.started\"\x7d\n\x7b\"type\": \"thread.started\", \"thread_id\": \"abc\"\x7d\n\x7b\"type\": \"thread.started\", \"thread_id\": \"zzz\"\x7d", ""⟩)
    rfl rfl).1⟩

/-- C8 counterexample: `ClaudeCodeClient.create_chat` raises a
`RuntimeError` on a zero exit status when the captured stdout is not a
JSON document, refuting `a zero exit status never raises regardless of
stdout content`. -/
theorem c8_counterexample :
    claudeCreateChat claudeDefault (fun _ => ⟨0, "", ""⟩) =
      .error (.runtimeError "Failed to parse Claude output: <JSONDecodeError>") := rfl

/-- C8 amended: in `ClaudeCodeClient`, `CodexClient` and `GeminiClient`,
every operation maps a non-zero child exit status to a `RuntimeError`
whose message embeds the captured stderr, falling back to the captured
stdout when stderr is empty (`GeminiClient` substitutes its
Node.js-upgrade message when the diagnostic contains the Node.js
markers); a zero exit status never raises in `ClaudeCodeClient.agent`
and `GeminiClient.agent`, while the JSON-parsing operations can raise on
unparsable stdout even with exit status 0, and `CursorAgentClient`'s
operations raise `AttributeError` before any spawn (their `create_chat`
handler, were it reachable, would use stderr with no fallback). -/
theorem c8_exit_status (c1 : ClaudeCodeClient) (c2 : CodexClient) (c3 : GeminiClient)
    (c4 : CursorAgentClient) (r : AgentRequest)
    (runA runB : List String → RunResult)
    (hA : ∀ cmd, (runA cmd).exitCode ≠ 0)
    (hB : ∀ cmd, (runB cmd).exitCode = 0) :
    claudeAgent c1 r runA = .error (.runtimeError ("Claude Code execution failed: " ++
      pyStrOr (runA (claudeBuildCmd c1 r)).stderr (runA (claudeBuildCmd c1 r)).stdout)) ∧
    claudeCreateChat c1 runA = .error (.runtimeError ("Failed to create chat: " ++
      pyStrOr (runA (claudeChatCmd c1)).stderr (runA (claudeChatCmd c1)).stdout)) ∧
    codexAgent c2 r runA = .error (.runtimeError ("Codex execution failed: " ++
      pyStrOr (runA (codexBuildCmd c2 r)).stderr (runA (codexBuildCmd c2 r)).stdout)) ∧
    codexCreateChat c2 runA = .error (.runtimeError ("Failed to create chat: " ++
      pyStrOr (runA (codexChatCmd c2)).stderr (runA (codexChatCmd c2)).stdout)) ∧
    geminiAgent c3 r runA = .error (.runtimeError
      (if geminiHasNodeMarkers
          (pyStrOr (runA (geminiBuildCmd c3 r)).stderr (runA (geminiBuildCmd c3 r)).stdout)
       then geminiNodeMsg
          (pyStrOr (runA (geminiBuildCmd c3 r)).stderr (runA (geminiBuildCmd c3 r)).stdout)
       else "Gemini execution failed: " ++
          pyStrOr (runA (geminiBuildCmd c3 r)).stderr (runA (geminiBuildCmd c3 r)).stdout)) ∧
    geminiCreateChat c3 runA = .error (.runtimeError
      (if geminiHasNodeMarkers
          (pyStrOr (runA (geminiChatCmd c3)).stderr (runA (geminiChatCmd c3)).stdout)
       then geminiNodeMsg
          (pyStrOr (runA (geminiChatCmd c3)).stderr (runA (geminiChatCmd c3)).stdout)
       else "Failed to create chat: " ++
          pyStrOr (runA (geminiChatCmd c3)).stderr (runA (geminiChatCmd c3)).stdout)) ∧
    cursorAgent c4 r runA = (.error (.attributeError "_run_command"), []) ∧
    cursorCreateChat c4 runA = (.error (.attributeError "_run_command"), []) ∧
    claudeAgent c1 r runB = .ok (pyStrip (runB (claudeBuildCmd c1 r)).stdout) ∧
    geminiAgent c3 r runB = .ok (pyStrip (runB (geminiBuildCmd c3 r)).stdout) := by
  refine ⟨?_, ?_, ?_, ?_, ?_, ?_, rfl, rfl, ?_, ?_⟩ <;>
    simp [claudeAgent, claudeCreateChat, codexAgent, codexCreateChat, geminiAgent,
      geminiCreateChat, hA, hB]

/-- C8 witness: the amended statement at a failing run with empty stderr
(exercising the stdout fallback) and a succeeding run. -/
theorem c8_witness :
    claudeAgent claudeDefault { prompt := "p" } (fun _ => ⟨1, "boom", ""⟩) =
      .error (.runtimeError "Claude Code execution failed: boom") ∧
    claudeCreateChat claudeDefault (fun _ => ⟨1, "boom", ""⟩) =
      .error (.runtimeError "Failed to create chat: boom") ∧
    codexAgent codexDefault { prompt := "p" } (fun _ => ⟨1, "boom", ""⟩) =
      .error (.runtimeError "Codex execution failed: boom") ∧
    codexCreateChat codexDefault (fun _ => ⟨1, "boom", ""⟩) =
      .error (.runtimeError "Failed to create chat: boom") ∧
    geminiAgent geminiDefault { prompt := "p" } (fun _ => ⟨1, "boom", ""⟩) =
      .error (.runtimeError "Gemini execution failed: boom") ∧
    geminiCreateChat geminiDefault (fun _ => ⟨1, "boom", ""⟩) =
      .error (.runtimeError "Failed to create chat: boom") ∧
    cursorAgent cursorDefault { prompt := "p" } (fun _ => ⟨1, "boom", ""⟩) =
      (.error (.attributeError "_run_command"), []) ∧
    cursorCreateChat cursorDefault (fun _ => ⟨1, "boom", ""⟩) =
      (.error (.attributeError "_run_command"), []) ∧
    claudeAgent claudeDefault { prompt := "p" } (fun _ => ⟨0, "out", ""⟩) = .ok "out" ∧
    geminiAgent geminiDefault { prompt := "p" } (fun _ => ⟨0, "out", ""⟩) = .ok "out" :=
  c8_exit_status claudeDefault codexDefault geminiDefault cursorDefault { prompt := "p" }
    (fun _ => ⟨1, "boom", ""⟩) (fun _ => ⟨0, "out", ""⟩)
    (fun _ => Nat.one_ne_zero) (fun _ => rfl)

end PyCursorAgent
